import Mathlib

/-!
Shallow embedding of the CricForecaster statistics aggregation engine
(scripts/get_batting_stats.py, scripts/get_bowling_stats.py,
scripts/cricket_utils.py, scripts/save_batting_stats_to_json.py,
scripts/save_bowling_stats_to_json.py).

Python floats are modelled as rationals; the `float('inf')` sentinel used
for the batting average is modelled by the `PyFloat` sum type.  Python's
`round(x, n)` (round-half-to-even) is modelled by `pyRound`.
-/

namespace Cric

/-- A wicket entry of a delivery: `{player_out, kind}`. -/
structure Wicket where
  player_out : String
  kind : String
deriving DecidableEq, Repr

/-- The `runs` mapping of a delivery; `delivery["runs"].get("batter", 0)` and
`.get("extras", 0)` are modelled by total fields defaulting to 0. -/
structure RunsRec where
  batter : Nat := 0
  extras : Nat := 0
deriving DecidableEq, Repr

/-- The optional `extras` mapping of a delivery: which extra kinds are present
and their amounts. -/
structure ExtrasRec where
  wides : Option Nat := none
  noballs : Option Nat := none
  byes : Option Nat := none
  legbyes : Option Nat := none
deriving DecidableEq, Repr

/-- One ball-event record.  `extras` is `none` when the JSON has no `extras`
key; `wickets` defaults to the empty list (`delivery.get("wickets", [])`). -/
structure Delivery where
  batter : String
  bowler : String
  runs : RunsRec := {}
  extras : Option ExtrasRec := none
  wickets : List Wicket := []
deriving DecidableEq, Repr

/-- An over: `over.get("deliveries", [])`. -/
structure Over where
  deliveries : List Delivery := []
deriving DecidableEq, Repr

/-- An innings: `inning.get("overs", [])`. -/
structure Innings where
  overs : List Over := []
deriving DecidableEq, Repr

/-- A match: file stem (`match_id`) plus its innings list.  The corpus is the
date-sorted list of matches produced by `get_match_files_sorted_by_date`
(ordering is done by the external corpus provider). -/
structure Match where
  matchId : String
  innings : List Innings := []
deriving DecidableEq, Repr

/-- `cricket_utils.is_wide`: the delivery's extras contain a `wides` entry. -/
def is_wide (d : Delivery) : Bool :=
  match d.extras with
  | none => false
  | some e => e.wides.isSome

/-- `cricket_utils.is_no_ball`: the delivery's extras contain a `noballs`
entry. -/
def is_no_ball (d : Delivery) : Bool :=
  match d.extras with
  | none => false
  | some e => e.noballs.isSome

/-- `BattingStats` dataclass of `get_batting_stats.py`. -/
structure BattingStats where
  balls_faced : Nat := 0
  runs : Nat := 0
  fours : Nat := 0
  sixes : Nat := 0
  dot_balls : Nat := 0
  boundary_balls : Nat := 0
  out : Bool := false
deriving DecidableEq, Repr

/-- `process_delivery` of `get_batting_stats.py`: single-delivery batting
outcome for `player`. -/
def process_delivery (d : Delivery) (player : String) : BattingStats :=
  if d.batter ≠ player then {}
  else
    let run := d.runs.batter
    let balls_faced := if ¬ is_wide d then 1 else 0
    let fours := if ¬ is_wide d ∧ run = 4 then 1 else 0
    let sixes := if ¬ is_wide d ∧ run ≠ 4 ∧ run = 6 then 1 else 0
    let dot_balls := if ¬ is_wide d ∧ run ≠ 4 ∧ run ≠ 6 ∧ run = 0 then 1 else 0
    let boundary_balls := fours + sixes
    let out := d.wickets.any (fun w => w.player_out = player)
    { balls_faced := balls_faced, runs := run, fours := fours, sixes := sixes,
      dot_balls := dot_balls, boundary_balls := boundary_balls, out := out }

/-- `process_innings` of `get_batting_stats.py`: sum-fold of per-delivery
batting outcomes over all deliveries of all overs; `out` is OR-reduced. -/
def process_innings (overs : List Over) (player : String) : BattingStats :=
  overs.foldl
    (fun stats over =>
      over.deliveries.foldl
        (fun stats d =>
          let ds := process_delivery d player
          { runs := stats.runs + ds.runs,
            balls_faced := stats.balls_faced + ds.balls_faced,
            fours := stats.fours + ds.fours,
            sixes := stats.sixes + ds.sixes,
            dot_balls := stats.dot_balls + ds.dot_balls,
            boundary_balls := stats.boundary_balls + ds.boundary_balls,
            out := if ds.out then true else stats.out })
        stats)
    {}

/-- `BowlingStats` dataclass of `get_bowling_stats.py`. -/
structure BowlingStats where
  overs : ℚ := 0
  balls : Nat := 0
  runs_conceded : Nat := 0
  wickets : Nat := 0
  dot_balls : Nat := 0
  boundary_balls : Nat := 0
  extras : Nat := 0
  wides : Nat := 0
  no_balls : Nat := 0
deriving DecidableEq, Repr

/-- `process_delivery_bowling` of `get_bowling_stats.py`: single-delivery
bowling outcome for `player`. -/
def process_delivery_bowling (d : Delivery) (player : String) : BowlingStats :=
  if d.bowler ≠ player then {}
  else
    let batter_runs := d.runs.batter
    -- extras_runs: only when the delivery has an `extras` entry and is a
    -- wide or a no-ball (byes/leg-byes excluded)
    let extras_runs :=
      if d.extras.isSome then
        if is_wide d ∨ is_no_ball d then d.runs.extras else 0
      else 0
    let runs_conceded := batter_runs + extras_runs
    -- legal ball and its dot/boundary classification
    let balls := if ¬ is_wide d ∧ ¬ is_no_ball d then 1 else 0
    let dot_balls :=
      if ¬ is_wide d ∧ ¬ is_no_ball d ∧ batter_runs = 0 then 1 else 0
    let boundary_balls :=
      if ¬ is_wide d ∧ ¬ is_no_ball d ∧ batter_runs ≠ 0 ∧
          (batter_runs = 4 ∨ batter_runs = 6) then 1 else 0
    -- extras counters
    let extras := if d.extras.isSome then 1 else 0
    let wides := if d.extras.isSome ∧ is_wide d then 1 else 0
    let no_balls := if d.extras.isSome ∧ ¬ is_wide d ∧ is_no_ball d then 1 else 0
    -- wickets: every wicket entry whose kind is not "run out"
    let wickets :=
      d.wickets.foldl (fun n w => if w.kind ≠ "run out" then n + 1 else n) 0
    { overs := 0, balls := balls, runs_conceded := runs_conceded,
      wickets := wickets, dot_balls := dot_balls,
      boundary_balls := boundary_balls, extras := extras, wides := wides,
      no_balls := no_balls }

/-- The field-by-field accumulation used by both loops of
`process_innings_bowling` (it never touches the `overs` field of the
accumulator). -/
def mergeBowling (s t : BowlingStats) : BowlingStats :=
  { s with
    runs_conceded := s.runs_conceded + t.runs_conceded,
    balls := s.balls + t.balls,
    wickets := s.wickets + t.wickets,
    dot_balls := s.dot_balls + t.dot_balls,
    boundary_balls := s.boundary_balls + t.boundary_balls,
    extras := s.extras + t.extras,
    wides := s.wides + t.wides,
    no_balls := s.no_balls + t.no_balls }

/-- The inner loop of `process_innings_bowling`: over-level sub-totals of the
player's per-delivery outcomes. -/
def overSubTotals (over : Over) (player : String) : BowlingStats :=
  over.deliveries.foldl
    (fun acc d => mergeBowling acc (process_delivery_bowling d player)) {}

/-- `process_innings_bowling` of `get_bowling_stats.py`: an over's sub-totals
are merged into the innings total only when `over_stats.balls > 0`. -/
def process_innings_bowling (overs : List Over) (player : String) :
    BowlingStats :=
  overs.foldl
    (fun stats over =>
      let over_stats := overSubTotals over player
      if over_stats.balls > 0 then mergeBowling stats over_stats else stats)
    {}

/-- Python float values as produced by the aggregators: either the
`float('inf')` sentinel or a finite value (modelled as a rational). -/
inductive PyFloat where
  | inf : PyFloat
  | val : ℚ → PyFloat
deriving DecidableEq, Repr

/-- Round a rational to the nearest integer, ties to even (Python's
`round`). -/
def roundHalfEven (q : ℚ) : ℤ :=
  let f := q.floor
  if q - f < 1/2 then f
  else if 1/2 < q - f then f + 1
  else if f % 2 = 0 then f else f + 1

/-- Python's `round(q, n)`. -/
def pyRound (q : ℚ) (n : Nat) : ℚ :=
  (roundHalfEven (q * 10 ^ n) : ℚ) / 10 ^ n

/-- Python `set.add`: insert if absent (only membership and cardinality are
ever used downstream). -/
def setInsert {α : Type} [DecidableEq α] (l : List α) (x : α) : List α :=
  if x ∈ l then l else l ++ [x]

/-- Python `dict[k] = v`: overwrite an existing key, else append. -/
def dictSet {α β : Type} [DecidableEq α] :
    List (α × β) → α → β → List (α × β)
  | [], k, v => [(k, v)]
  | (k0, v0) :: rest, k, v =>
      if k0 = k then (k, v) :: rest else (k0, v0) :: dictSet rest k v

/-- `l[-n:]` in Python: the last `n` elements. -/
def takeLast {α : Type} (n : Nat) (l : List α) : List α :=
  l.drop (l.length - n)

/-- The mutable accumulation state of the loop in `get_batting_stats`. -/
structure BatAgg where
  matches_played : List String := []
  innings_played : List (String × Nat) := []
  highest_score : Nat := 0
  outs : Nat := 0
  runs : Nat := 0
  balls_faced : Nat := 0
  fours : Nat := 0
  sixes : Nat := 0
  dot_balls : Nat := 0
  boundary_balls : Nat := 0
  innings_out_flags : List ((String × Nat) × Bool) := []
  innings_scores : List Nat := []
deriving DecidableEq, Repr

/-- One iteration of the innings loop of `get_batting_stats`: contributes only
when the player faced at least one ball in the innings. -/
def batInningsStep (player matchId : String) (agg : BatAgg) (inningIdx : Nat)
    (inning : Innings) : BatAgg :=
  let stats := process_innings inning.overs player
  if stats.balls_faced > 0 then
    { matches_played := setInsert agg.matches_played matchId,
      innings_played := setInsert agg.innings_played (matchId, inningIdx),
      highest_score := max agg.highest_score stats.runs,
      runs := agg.runs + stats.runs,
      balls_faced := agg.balls_faced + stats.balls_faced,
      fours := agg.fours + stats.fours,
      sixes := agg.sixes + stats.sixes,
      dot_balls := agg.dot_balls + stats.dot_balls,
      boundary_balls := agg.boundary_balls + stats.boundary_balls,
      innings_scores := agg.innings_scores ++ [stats.runs],
      outs := if stats.out then agg.outs + 1 else agg.outs,
      innings_out_flags :=
        dictSet agg.innings_out_flags (matchId, inningIdx) stats.out }
  else agg

/-- The match/innings double loop of `get_batting_stats` over the date-sorted
corpus. -/
def battingAgg (corpus : List Match) (player : String) : BatAgg :=
  corpus.foldl
    (fun agg m =>
      m.innings.enum.foldl
        (fun agg p => batInningsStep player m.matchId agg p.1 p.2) agg)
    {}

/-- `not_outs` in `get_batting_stats`: participating innings whose out flag is
false. -/
def notOutsOf (agg : BatAgg) : Nat :=
  agg.innings_out_flags.countP (fun kv => !kv.2)

/-- The batting-average expression of `get_batting_stats` (line computing
`average`), before rounding: `runs/(innings-not_outs)` when the denominator is
positive, else `float('inf')` when `runs > 0`, else `0.0`. -/
def battingAverageRaw (runs : Nat) (denom : ℤ) : PyFloat :=
  if 0 < denom then .val ((runs : ℚ) / (denom : ℚ))
  else if 0 < runs then .inf
  else .val 0

/-- The fixed recency weights of the form index. -/
def formWeights : List ℚ := [3/2, 13/10, 11/10, 9/10, 7/10]

/-- The dict returned by `get_batting_stats` (rounded fields rounded exactly
where the source rounds them). -/
structure BattingCareer where
  «matches» : Nat
  innings : Nat
  not_outs : Nat
  runs : Nat
  average : PyFloat
  strike_rate : ℚ
  balls_faced : Nat
  fours : Nat
  sixes : Nat
  highest_score : Nat
  dot_ball_percentage : ℚ
  boundary_percentage : ℚ
  balls_per_boundary : ℚ
  boundary_to_dot_ratio : ℚ
  balls_per_dismissal : ℚ
  fifties : Nat
  hundreds : Nat
  consistency : ℚ
  recent_scores : List Nat
  form_index : ℚ
deriving DecidableEq, Repr

/-- `get_batting_stats` of `get_batting_stats.py`, as a function of the
date-sorted corpus and the player. -/
def get_batting_stats (corpus : List Match) (player : String) :
    BattingCareer :=
  let agg := battingAgg corpus player
  let not_outs := notOutsOf agg
  let innings_count := agg.innings_played.length
  let matches_count := agg.matches_played.length
  let average := battingAverageRaw agg.runs ((innings_count : ℤ) - not_outs)
  let strike_rate :=
    if agg.balls_faced > 0 then (agg.runs : ℚ) / agg.balls_faced * 100 else 0
  let dot_ball_percentage :=
    if agg.balls_faced > 0 then (agg.dot_balls : ℚ) / agg.balls_faced * 100
    else 0
  let boundary_percentage :=
    if agg.balls_faced > 0 then
      (agg.boundary_balls : ℚ) / agg.balls_faced * 100
    else 0
  let balls_per_boundary :=
    if agg.fours + agg.sixes > 0 then
      (agg.balls_faced : ℚ) / ((agg.fours + agg.sixes : Nat) : ℚ)
    else 0
  let boundary_to_dot_ratio :=
    if agg.dot_balls > 0 then
      ((agg.fours + agg.sixes : Nat) : ℚ) / agg.dot_balls
    else 0
  let balls_per_dismissal :=
    if 0 < (innings_count : ℤ) - not_outs then
      (agg.balls_faced : ℚ) / (((innings_count : ℤ) - not_outs : ℤ) : ℚ)
    else 0
  let fifties := agg.innings_scores.countP (fun s => decide (50 ≤ s ∧ s < 100))
  let hundreds := agg.innings_scores.countP (fun s => decide (100 ≤ s))
  let consistency :=
    if innings_count > 0 then
      (agg.innings_scores.countP (fun s => decide (30 ≤ s)) : ℚ)
        / innings_count * 100
    else 0
  let recent_scores := takeLast 5 agg.innings_scores
  let form_index :=
    if recent_scores ≠ [] then
      pyRound
        ((List.zipWith (fun s w => (s : ℚ) * w) recent_scores.reverse
          formWeights).sum / 5) 2
    else 0
  { «matches» := matches_count, innings := innings_count, not_outs := not_outs,
    runs := agg.runs,
    average := match average with
      | .inf => .inf
      | .val q => .val (pyRound q 2),
    strike_rate := pyRound strike_rate 2,
    balls_faced := agg.balls_faced, fours := agg.fours, sixes := agg.sixes,
    highest_score := agg.highest_score,
    dot_ball_percentage := pyRound dot_ball_percentage 2,
    boundary_percentage := pyRound boundary_percentage 2,
    balls_per_boundary := pyRound balls_per_boundary 2,
    boundary_to_dot_ratio := pyRound boundary_to_dot_ratio 2,
    balls_per_dismissal := pyRound balls_per_dismissal 2,
    fifties := fifties, hundreds := hundreds,
    consistency := pyRound consistency 2,
    recent_scores := recent_scores, form_index := form_index }

/-- Accumulation state of `cricket_utils.process_matches_for_player`.  For
bowling the duck-typed participation probe takes the `balls > 0` branch
(`BowlingStats` has no `balls_faced` attribute). -/
structure BowlAgg where
  matches_played : List String := []
  innings_played : List (String × Nat) := []
  all_stats : List (String × Nat × BowlingStats) := []
deriving DecidableEq, Repr

/-- One iteration of the innings loop of `process_matches_for_player` for the
bowling shape: record the innings only when the player bowled a legal ball. -/
def bowlInningsStep (player matchId : String) (agg : BowlAgg) (inningIdx : Nat)
    (inning : Innings) : BowlAgg :=
  let stats := process_innings_bowling inning.overs player
  if stats.balls > 0 then
    { matches_played := setInsert agg.matches_played matchId,
      innings_played := setInsert agg.innings_played (matchId, inningIdx),
      all_stats := agg.all_stats ++ [(matchId, inningIdx, stats)] }
  else agg

/-- `process_matches_for_player` of `cricket_utils.py` applied to
`process_innings_bowling`, over the date-sorted corpus. -/
def process_matches_for_player (corpus : List Match) (player : String) :
    BowlAgg :=
  corpus.foldl
    (fun agg m =>
      m.innings.enum.foldl
        (fun agg p => bowlInningsStep player m.matchId agg p.1 p.2) agg)
    {}

/-- The field-by-field summation loop at the top of `get_bowling_stats`
(this one also accumulates the `overs` field). -/
def addAllBowling (s t : BowlingStats) : BowlingStats :=
  { overs := s.overs + t.overs,
    balls := s.balls + t.balls,
    runs_conceded := s.runs_conceded + t.runs_conceded,
    wickets := s.wickets + t.wickets,
    dot_balls := s.dot_balls + t.dot_balls,
    boundary_balls := s.boundary_balls + t.boundary_balls,
    extras := s.extras + t.extras,
    wides := s.wides + t.wides,
    no_balls := s.no_balls + t.no_balls }

/-- The career totals summed over `all_stats` in `get_bowling_stats`. -/
def careerTotals (l : List (String × Nat × BowlingStats)) : BowlingStats :=
  l.foldl (fun acc e => addAllBowling acc e.2.2) {}

/-- The dict returned by `get_bowling_stats` (rounded fields rounded exactly
where the source rounds them). -/
structure BowlingCareer where
  «matches» : Nat
  innings : Nat
  overs : ℚ
  balls : Nat
  runs_conceded : Nat
  wickets : Nat
  average : ℚ
  economy : ℚ
  strike_rate : ℚ
  dot_ball_percentage : ℚ
  boundary_percentage : ℚ
  extras : Nat
  wides : Nat
  no_balls : Nat
  extras_percentage : ℚ
  balls_per_wicket : ℚ
  three_wicket_hauls : Nat
  five_wicket_hauls : Nat
  recent_wickets : List Nat
  form_index : ℚ
deriving DecidableEq, Repr

/-- `get_bowling_stats` of `get_bowling_stats.py`: `none` models the Python
`None` returned when the player has never bowled a (counted) legal ball. -/
def get_bowling_stats (corpus : List Match) (player : String) :
    Option BowlingCareer :=
  let agg := process_matches_for_player corpus player
  let t := careerTotals agg.all_stats
  let innings_wickets := agg.all_stats.map (fun e => e.2.2.wickets)
  if t.balls = 0 then none
  else
    let matches_count := agg.matches_played.length
    let innings_count := agg.innings_played.length
    let complete_overs := t.balls / 6
    let remaining_balls := t.balls % 6
    let oversQ : ℚ := (complete_overs : ℚ) + (remaining_balls : ℚ) / 10
    let total_balls := t.balls + t.wides + t.no_balls
    let average :=
      if t.wickets > 0 then (t.runs_conceded : ℚ) / t.wickets else 0
    let economy := if oversQ > 0 then (t.runs_conceded : ℚ) / oversQ else 0
    let strike_rate :=
      if t.wickets > 0 then (t.balls : ℚ) / t.wickets else 0
    let dot_ball_percentage :=
      if t.balls > 0 then (t.dot_balls : ℚ) / t.balls * 100 else 0
    let boundary_percentage :=
      if t.balls > 0 then (t.boundary_balls : ℚ) / t.balls * 100 else 0
    let balls_per_wicket :=
      if t.wickets > 0 then (t.balls : ℚ) / t.wickets else 0
    let extras_percentage :=
      if total_balls > 0 then (t.extras : ℚ) / total_balls * 100 else 0
    let three_wicket_hauls := innings_wickets.countP (fun w => decide (3 ≤ w))
    let five_wicket_hauls := innings_wickets.countP (fun w => decide (5 ≤ w))
    let recent_wickets := takeLast 5 innings_wickets
    let form_index :=
      if recent_wickets ≠ [] then
        pyRound
          ((List.zipWith (fun w weight => (w : ℚ) * weight)
            recent_wickets.reverse formWeights).sum / 5) 2
      else 0
    some
      { «matches» := matches_count, innings := innings_count,
        overs := pyRound oversQ 1, balls := t.balls,
        runs_conceded := t.runs_conceded, wickets := t.wickets,
        average := pyRound average 2, economy := pyRound economy 2,
        strike_rate := pyRound strike_rate 2,
        dot_ball_percentage := pyRound dot_ball_percentage 2,
        boundary_percentage := pyRound boundary_percentage 2,
        extras := t.extras, wides := t.wides, no_balls := t.no_balls,
        extras_percentage := pyRound extras_percentage 2,
        balls_per_wicket := pyRound balls_per_wicket 2,
        three_wicket_hauls := three_wicket_hauls,
        five_wicket_hauls := five_wicket_hauls,
        recent_wickets := recent_wickets, form_index := form_index }

/-- `process_player` of `save_batting_stats_to_json.py`. -/
def process_player_batting (corpus : List Match) (player : String) :
    String × BattingCareer :=
  (player, get_batting_stats corpus player)

/-- The `as_completed` collection loop of `save_batting_stats_to_json.py`:
`arrival` is the order in which the per-player futures complete; the Python
dict records keys in that insertion order, and `json.dump` serialises keys in
that order. -/
def collect_batting (corpus : List Match) (arrival : List String) :
    List (String × BattingCareer) :=
  arrival.map (process_player_batting corpus)

/-- `process_player` of `save_bowling_stats_to_json.py`: `none` when the
player has never bowled. -/
def process_player_bowling (corpus : List Match) (player : String) :
    Option (String × BowlingCareer) :=
  match get_bowling_stats corpus player with
  | some stats => some (player, stats)
  | none => none

/-- The `as_completed` collection loop of `save_bowling_stats_to_json.py`:
players whose result is `None` are skipped. -/
def collect_bowling (corpus : List Match) (arrival : List String) :
    List (String × BowlingCareer) :=
  arrival.filterMap (process_player_bowling corpus)

/-- Total legal balls accumulated for a player across the corpus (the `balls`
career total of `get_bowling_stats`). -/
def total_legal_balls (corpus : List Match) (player : String) : Nat :=
  (careerTotals (process_matches_for_player corpus player).all_stats).balls

/-- Career run total of the batting aggregation. -/
def batRuns (corpus : List Match) (player : String) : Nat :=
  (battingAgg corpus player).runs

/-- `innings_count` of `get_batting_stats`: participating innings. -/
def batInnings (corpus : List Match) (player : String) : Nat :=
  (battingAgg corpus player).innings_played.length

/-- `not_outs` of `get_batting_stats`. -/
def batNotOuts (corpus : List Match) (player : String) : Nat :=
  notOutsOf (battingAgg corpus player)

/-- The batting-average denominator `innings_count - not_outs` (a Python int
subtraction). -/
def batDismissals (corpus : List Match) (player : String) : ℤ :=
  (batInnings corpus player : ℤ) - batNotOuts corpus player

/-! Claim-side definitions, written from the claim's words, to be compared
with the code-side definitions above. -/

/-- Claim C1's words: average = runs/(innings − not_outs) when that
denominator is positive; else the raw run total when runs > 0; else 0.0 —
never an infinity sentinel. -/
def claimBattingAverage (runs : Nat) (denom : ℤ) : PyFloat :=
  if 0 < denom then .val ((runs : ℚ) / (denom : ℚ))
  else if 0 < runs then .val (runs : ℚ)
  else .val 0

/-- Claim C1 as amended: average = runs/(innings − not_outs) (stored rounded
to two decimals) when that denominator is positive; when the denominator is
0 it is the `float('inf')` sentinel if runs > 0, and 0.0 if runs = 0. -/
def amendedBattingAverage (runs : Nat) (denom : ℤ) : PyFloat :=
  if 0 < denom then .val (pyRound ((runs : ℚ) / (denom : ℚ)) 2)
  else if 0 < runs then .inf
  else .val 0

/-- Claim C2's words: the out flag is true iff some wicket entry on the
delivery has `player_out` equal to the player, regardless of whether the
player is the delivery's batter. -/
def claimOutFlag (d : Delivery) (player : String) : Bool :=
  d.wickets.any (fun w => w.player_out = player)

/-! Concrete data used by counterexamples and witnesses. -/

/-- A delivery on which the non-striker "B" is run out while "A" is the
batter. -/
def dNonStrikerRunOut : Delivery :=
  { batter := "A", bowler := "C",
    wickets := [{ player_out := "B", kind := "run out" }] }

/-- A delivery by bowler "B" carrying a caught wicket and a run-out. -/
def dTwoWickets : Delivery :=
  { batter := "A", bowler := "B",
    wickets := [{ player_out := "A", kind := "caught" },
                { player_out := "Z", kind := "run out" }] }

/-- A delivery by bowler "B" with two leg-byes and one batter run. -/
def dLegByes : Delivery :=
  { batter := "A", bowler := "B", runs := { batter := 1, extras := 2 },
    extras := some { legbyes := some 2 } }

/-- A delivery by bowler "B" whose extras carry both a wides entry and a
noballs entry. -/
def dWideAndNoBall : Delivery :=
  { batter := "A", bowler := "B", runs := { batter := 0, extras := 2 },
    extras := some { wides := some 1, noballs := some 1 } }

/-- A legal delivery bowled by "B" with no runs and no wickets. -/
def dLegal : Delivery := { batter := "A", bowler := "B" }

/-- A delivery on which batter "X" scores ten and is not dismissed. -/
def dTen : Delivery := { batter := "X", bowler := "Y", runs := { batter := 10 } }

/-- A delivery on which batter "X" is bowled for no run. -/
def dBowledOut : Delivery :=
  { batter := "X", bowler := "Y",
    wickets := [{ player_out := "X", kind := "bowled" }] }

/-- A one-match corpus whose single innings consists of one over holding the
given deliveries. -/
def oneOverCorpus (ds : List Delivery) : List Match :=
  [{ matchId := "m1", innings := [{ overs := [{ deliveries := ds }] }] }]

/-! Helper lemmas shared by the claim theorems. -/

lemma ratFloor_eq_intFloor (q : ℚ) : q.floor = ⌊q⌋ := by
  rw [Rat.floor_def', Rat.floor_def]

lemma roundHalfEven_intCast (k : ℤ) : roundHalfEven (k : ℚ) = k := by
  unfold roundHalfEven
  rw [ratFloor_eq_intFloor, Int.floor_intCast]
  norm_num

lemma pyRound_eq_div (q : ℚ) (n : ℕ) (k : ℤ) (h : q * 10 ^ n = (k : ℚ)) :
    pyRound q n = (k : ℚ) / 10 ^ n := by
  unfold pyRound
  rw [h, roundHalfEven_intCast]

lemma pyRound_self (q : ℚ) (n : ℕ) (k : ℤ) (h : q * 10 ^ n = (k : ℚ)) :
    pyRound q n = q := by
  rw [pyRound_eq_div q n k h, div_eq_iff (by positivity : ((10 : ℚ)) ^ n ≠ 0)]
  exact h.symm

lemma pyRound_zero (n : ℕ) : pyRound 0 n = 0 :=
  pyRound_self 0 n 0 (by norm_num)

/-- Claim C2: the out flag produced by `process_delivery`, with no condition
on the batter. -/
lemma process_delivery_out (d : Delivery) (p : String) :
    (process_delivery d p).out =
      (decide (d.batter = p) && claimOutFlag d p) := by
  by_cases h : d.batter = p <;>
    simp [process_delivery, claimOutFlag, h]

/-- C2 counterexample: a run-out of the non-striker "B" leaves the out flag
false although a wicket entry names "B". -/
theorem C2_out_flag_counterexample :
    (process_delivery dNonStrikerRunOut "B").out = false ∧
      claimOutFlag dNonStrikerRunOut "B" = true := by
  constructor <;> decide

/-- C2 as amended: for every delivery and player, the batting outcome's out
flag is true iff the player is the delivery's batter AND some wicket entry's
`player_out` equals the player (a run-out of the non-striker does not set the
flag, because `process_delivery` returns the zero outcome when the batter
differs). -/
theorem C2_out_flag_amended (d : Delivery) (p : String) :
    (process_delivery d p).out =
      (decide (d.batter = p) &&
        d.wickets.any (fun w => w.player_out = p)) := by
  rw [process_delivery_out]
  rfl

lemma wicket_count_foldl (l : List Wicket) (n : Nat) :
    l.foldl (fun n w => if w.kind = "run out" then n else n + 1) n =
      n + (l.filter (fun w => !decide (w.kind = "run out"))).length := by
  induction l generalizing n with
  | nil => simp
  | cons w t ih =>
    rw [List.foldl_cons, List.filter_cons]
    by_cases h : w.kind = "run out"
    · rw [if_pos h, ih, if_neg (by simp [h])]
    · rw [if_neg h, ih, if_pos (by simp [h])]
      simp only [List.length_cons]
      omega

/-- C5: for a delivery bowled by the player, the wickets credited equal the
number of wicket entries whose kind is not "run out" (run-outs are never
bowler-credited; several non-run-out entries credit several wickets). -/
theorem C5_bowler_wickets (d : Delivery) (p : String) (h : d.bowler = p) :
    (process_delivery_bowling d p).wickets =
      (d.wickets.filter (fun w => w.kind ≠ "run out")).length := by
  simp [process_delivery_bowling, h]
  rw [wicket_count_foldl]
  exact Nat.zero_add _

/-- C5 witness: on a delivery carrying a caught wicket and a run-out, the
bowler is credited exactly one wicket. -/
theorem C5_bowler_wickets_witness :
    dTwoWickets.bowler = "B" ∧
      (process_delivery_bowling dTwoWickets "B").wickets =
        (dTwoWickets.wickets.filter (fun w => w.kind ≠ "run out")).length ∧
      (process_delivery_bowling dTwoWickets "B").wickets = 1 :=
  ⟨rfl, C5_bowler_wickets dTwoWickets "B" rfl, by decide⟩

/-- C6: for a delivery bowled by the player, runs conceded are the batter's
runs plus the delivery's extras runs exactly when the delivery is a wide or a
no-ball, and the batter's runs alone otherwise (byes and leg-byes are never
added). -/
theorem C6_runs_conceded (d : Delivery) (p : String) (h : d.bowler = p) :
    (process_delivery_bowling d p).runs_conceded =
      d.runs.batter +
        (if is_wide d ∨ is_no_ball d then d.runs.extras else 0) := by
  cases he : d.extras with
  | none => simp [process_delivery_bowling, is_wide, is_no_ball, h, he]
  | some e => simp [process_delivery_bowling, is_wide, is_no_ball, h, he]

/-- C6 witness: a delivery with two leg-byes and one batter run concedes only
the single batter run. -/
theorem C6_runs_conceded_witness :
    dLegByes.bowler = "B" ∧
      (process_delivery_bowling dLegByes "B").runs_conceded =
        dLegByes.runs.batter +
          (if is_wide dLegByes ∨ is_no_ball dLegByes then dLegByes.runs.extras
           else 0) ∧
      (process_delivery_bowling dLegByes "B").runs_conceded = 1 :=
  ⟨rfl, C6_runs_conceded dLegByes "B" rfl, by decide⟩

/-- C10: on a delivery by the player whose extras carry both a wides entry
and a noballs entry, the wide classification wins: the wides sub-counter gets
1, the no-balls sub-counter stays 0, the extras counter increments exactly
once, and the delivery is not a legal ball. -/
theorem C10_wide_precedence (d : Delivery) (p : String) (e : ExtrasRec)
    (h : d.bowler = p) (he : d.extras = some e) (hw : e.wides.isSome)
    (_hn : e.noballs.isSome) :
    (process_delivery_bowling d p).wides = 1 ∧
      (process_delivery_bowling d p).no_balls = 0 ∧
      (process_delivery_bowling d p).extras = 1 ∧
      (process_delivery_bowling d p).balls = 0 := by
  have hwide : is_wide d = true := by simp [is_wide, he, hw]
  refine ⟨?_, ?_, ?_, ?_⟩ <;>
    simp [process_delivery_bowling, h, he, hwide]

/-- C10 witness: concrete delivery with both a wide and a no-ball entry. -/
theorem C10_wide_precedence_witness :
    dWideAndNoBall.bowler = "B" ∧
      dWideAndNoBall.extras = some { wides := some 1, noballs := some 1 } ∧
      ((process_delivery_bowling dWideAndNoBall "B").wides = 1 ∧
        (process_delivery_bowling dWideAndNoBall "B").no_balls = 0 ∧
        (process_delivery_bowling dWideAndNoBall "B").extras = 1 ∧
        (process_delivery_bowling dWideAndNoBall "B").balls = 0) :=
  ⟨rfl, rfl,
    C10_wide_precedence dWideAndNoBall "B" _ rfl rfl (by decide) (by decide)⟩

lemma innings_bowling_foldl_filter (p : String) (l : List Over)
    (acc : BowlingStats) :
    l.foldl
      (fun stats over =>
        let over_stats := overSubTotals over p
        if over_stats.balls > 0 then mergeBowling stats over_stats else stats)
      acc =
    ((l.map (fun o => overSubTotals o p)).filter
      (fun s => s.balls > 0)).foldl mergeBowling acc := by
  induction l generalizing acc with
  | nil => simp
  | cons o t ih =>
    rw [List.foldl_cons, List.map_cons, List.filter_cons]
    by_cases h : (overSubTotals o p).balls > 0
    · rw [if_pos h,
        if_pos (show decide ((overSubTotals o p).balls > 0) = true by
          simpa using h),
        List.foldl_cons, ih]
    · rw [if_neg h,
        if_neg (show ¬ decide ((overSubTotals o p).balls > 0) = true by
          simpa using h),
        ih]

/-- C3: the bowling innings fold equals the merge of exactly those overs'
sub-totals in which the player bowled at least one legal ball; an over whose
sub-total has `balls = 0` (for example one holding only wides or no-balls by
the player) contributes nothing — not even runs or extras — to the innings
total. -/
theorem C3_over_gating (overs : List Over) (p : String) :
    process_innings_bowling overs p =
      ((overs.map (fun o => overSubTotals o p)).filter
        (fun s => s.balls > 0)).foldl mergeBowling {} := by
  unfold process_innings_bowling
  exact innings_bowling_foldl_filter p overs {}

/-- C1 counterexample: a career of one innings with ten runs and no dismissal
has denominator 0; the code's average is the `float('inf')` sentinel while
the claim requires the raw run total 10. -/
theorem C1_average_counterexample :
    (get_batting_stats (oneOverCorpus [dTen]) "X").average = PyFloat.inf ∧
      claimBattingAverage (batRuns (oneOverCorpus [dTen]) "X")
        (batDismissals (oneOverCorpus [dTen]) "X") = PyFloat.val 10 ∧
      PyFloat.inf ≠ PyFloat.val 10 := by
  refine ⟨by decide, ?_, by simp⟩
  have hr : batRuns (oneOverCorpus [dTen]) "X" = 10 := by decide
  have hd : batDismissals (oneOverCorpus [dTen]) "X" = 0 := by decide
  rw [hr, hd]
  norm_num [claimBattingAverage]

/-- C1 as amended: for every corpus and player, the record's average is
runs/(innings − not_outs) (rounded to two decimals) when the denominator is
positive; with denominator 0 it is the infinity sentinel when runs > 0 and
0.0 when runs = 0. -/
theorem C1_average_amended (corpus : List Match) (player : String) :
    (get_batting_stats corpus player).average =
      amendedBattingAverage (batRuns corpus player)
        (batDismissals corpus player) := by
  show (match battingAverageRaw (battingAgg corpus player).runs
      (((battingAgg corpus player).innings_played.length : ℤ) -
        notOutsOf (battingAgg corpus player)) with
    | .inf => PyFloat.inf
    | .val q => PyFloat.val (pyRound q 2)) =
    amendedBattingAverage (batRuns corpus player)
      (batDismissals corpus player)
  rw [amendedBattingAverage, battingAverageRaw, batRuns, batDismissals,
    batInnings, batNotOuts]
  by_cases h1 : (0 : ℤ) < ((battingAgg corpus player).innings_played.length : ℤ)
      - notOutsOf (battingAgg corpus player)
  · simp [h1]
  · by_cases h2 : 0 < (battingAgg corpus player).runs
    · simp [h1, h2]
    · simp [h1, h2, pyRound_zero]

/-- C9: whenever innings exceed not_outs, the unrounded batting average times
(innings − not_outs) recovers the career run total exactly. -/
theorem C9_average_roundtrip (corpus : List Match) (player : String)
    (h : 0 < batDismissals corpus player) :
    battingAverageRaw (batRuns corpus player) (batDismissals corpus player) =
      PyFloat.val ((batRuns corpus player : ℚ) /
        (batDismissals corpus player : ℚ)) ∧
      (batRuns corpus player : ℚ) / (batDismissals corpus player : ℚ) *
        (batDismissals corpus player : ℚ) = batRuns corpus player := by
  constructor
  · simp [battingAverageRaw, h]
  · have hz : ((batDismissals corpus player : ℤ) : ℚ) ≠ 0 := by
      exact_mod_cast h.ne'
    exact div_mul_cancel₀ _ hz

/-- C9 witness: a single-innings career ending in a dismissal (innings = 1,
not_outs = 0). -/
theorem C9_average_roundtrip_witness :
    0 < batDismissals (oneOverCorpus [dBowledOut]) "X" ∧
      (battingAverageRaw (batRuns (oneOverCorpus [dBowledOut]) "X")
          (batDismissals (oneOverCorpus [dBowledOut]) "X") =
        PyFloat.val ((batRuns (oneOverCorpus [dBowledOut]) "X" : ℚ) /
          (batDismissals (oneOverCorpus [dBowledOut]) "X" : ℚ)) ∧
        (batRuns (oneOverCorpus [dBowledOut]) "X" : ℚ) /
            (batDismissals (oneOverCorpus [dBowledOut]) "X" : ℚ) *
          (batDismissals (oneOverCorpus [dBowledOut]) "X" : ℚ) =
        batRuns (oneOverCorpus [dBowledOut]) "X") :=
  ⟨by decide, C9_average_roundtrip (oneOverCorpus [dBowledOut]) "X" (by decide)⟩

/-- C7: the overs figure of every career record is
`(balls / 6) + (balls % 6)/10` in cricket notation, and in particular 23
legal balls give 3.5 and 24 give 4.0 exactly (for the corpus-free reading the
`none` case is mapped to 0, which satisfies the same formula). -/
theorem C7_overs_figure :
    (∀ (c : List Match) (p : String),
      (get_bowling_stats c p).elim (0 : ℚ) (fun r => r.overs) =
        ((total_legal_balls c p / 6 : ℕ) : ℚ) +
          ((total_legal_balls c p % 6 : ℕ) : ℚ) / 10) ∧
    (get_bowling_stats (oneOverCorpus (List.replicate 23 dLegal)) "B").elim
        (0 : ℚ) (fun r => r.overs) = 7/2 ∧
    (get_bowling_stats (oneOverCorpus (List.replicate 24 dLegal)) "B").elim
        (0 : ℚ) (fun r => r.overs) = 4 := by
  have main : ∀ (c : List Match) (p : String),
      (get_bowling_stats c p).elim (0 : ℚ) (fun r => r.overs) =
        ((total_legal_balls c p / 6 : ℕ) : ℚ) +
          ((total_legal_balls c p % 6 : ℕ) : ℚ) / 10 := by
    intro c p
    by_cases hb :
        (careerTotals (process_matches_for_player c p).all_stats).balls = 0
    · simp [get_bowling_stats, total_legal_balls, hb]
    · have hk : (((total_legal_balls c p / 6 : ℕ) : ℚ) +
          ((total_legal_balls c p % 6 : ℕ) : ℚ) / 10) * 10 ^ 1 =
          (((10 * (total_legal_balls c p / 6) +
            total_legal_balls c p % 6 : ℕ) : ℤ) : ℚ) := by
        rw [Int.cast_natCast, Nat.cast_add, Nat.cast_mul, Nat.cast_ofNat]
        ring
      simp only [get_bowling_stats, total_legal_balls] at hk ⊢
      rw [if_neg hb]
      simp only [Option.elim_some]
      exact pyRound_self _ 1 _ hk
  refine ⟨main, ?_, ?_⟩
  · rw [main]
    have h23 : total_legal_balls
        (oneOverCorpus (List.replicate 23 dLegal)) "B" = 23 := by decide
    rw [h23]
    norm_num
  · rw [main]
    have h24 : total_legal_balls
        (oneOverCorpus (List.replicate 24 dLegal)) "B" = 24 := by decide
    rw [h24]
    norm_num

lemma process_player_bowling_eq_map (c : List Match) (p : String) :
    process_player_bowling c p =
      (get_bowling_stats c p).map (fun st => (p, st)) := by
  cases h : get_bowling_stats c p <;> simp [process_player_bowling, h]

/-- C8: `get_bowling_stats` returns the explicit no-data result `none`
exactly when the accumulated legal balls are 0, and the collection loop of
`save_bowling_stats_to_json.py` keeps a player in the output mapping exactly
when the player was in the list and the result was not `none`. -/
theorem C8_no_data :
    (∀ (c : List Match) (p : String),
      (get_bowling_stats c p = none ↔ total_legal_balls c p = 0)) ∧
    (∀ (c : List Match) (ps : List String) (p : String),
      (p ∈ (collect_bowling c ps).map Prod.fst ↔
        p ∈ ps ∧ get_bowling_stats c p ≠ none)) := by
  constructor
  · intro c p
    by_cases hb :
        (careerTotals (process_matches_for_player c p).all_stats).balls = 0 <;>
      simp [get_bowling_stats, total_legal_balls, hb]
  · intro c ps p
    simp only [collect_bowling, List.map_filterMap,
      process_player_bowling_eq_map, Option.map_map, List.mem_filterMap]
    constructor
    · rintro ⟨a, ha, hfa⟩
      rcases Option.map_eq_some'.mp hfa with ⟨st, hst, hpa⟩
      simp only [Function.comp] at hpa
      subst hpa
      exact ⟨ha, by simp [hst]⟩
    · rintro ⟨hp, hne⟩
      rcases Option.ne_none_iff_exists'.mp hne with ⟨st, hst⟩
      exact ⟨p, hp, by simp [hst]⟩

/-- C8 instance: applying the theorem at a concrete corpus and player
list. -/
theorem C8_no_data_witness :
    (get_bowling_stats (oneOverCorpus [dLegal]) "B" = none ↔
      total_legal_balls (oneOverCorpus [dLegal]) "B" = 0) ∧
      ("A" ∈ (collect_bowling (oneOverCorpus [dLegal]) ["A"]).map Prod.fst ↔
        "A" ∈ ["A"] ∧
          get_bowling_stats (oneOverCorpus [dLegal]) "A" ≠ none) :=
  ⟨C8_no_data.1 (oneOverCorpus [dLegal]) "B",
    C8_no_data.2 (oneOverCorpus [dLegal]) ["A"] "A"⟩

/-- C4 counterexample: two completion orders of the same player set make the
collection loop record the keys in different orders, so the serialised
output (which lists keys in dict insertion order) is not byte-identical. -/
theorem C4_order_counterexample :
    collect_batting [] ["A", "B"] ≠ collect_batting [] ["B", "A"] := by
  intro h
  have hk := congrArg (fun l => l.map Prod.fst) h
  simp [collect_batting, process_player_batting] at hk

/-- C4 as amended: for any two completion orders that are permutations of
each other, the collected batting and bowling outputs are permutations of
each other — the output is deterministic as a key-value mapping, but its key
order (hence the output bytes) follows the result-collection order. -/
theorem C4_order_amended (c : List Match) (o1 o2 : List String)
    (h : o1.Perm o2) :
    (collect_batting c o1).Perm (collect_batting c o2) ∧
      (collect_bowling c o1).Perm (collect_bowling c o2) :=
  ⟨h.map _, h.filterMap _⟩

/-- C4 witness: the two concrete orders of the counterexample are
permutations, so the outputs agree as mappings. -/
theorem C4_order_amended_witness :
    (["A", "B"].Perm ["B", "A"]) ∧
      ((collect_batting [] ["A", "B"]).Perm (collect_batting [] ["B", "A"]) ∧
        (collect_bowling [] ["A", "B"]).Perm
          (collect_bowling [] ["B", "A"])) :=
  ⟨by decide, C4_order_amended [] ["A", "B"] ["B", "A"] (by decide)⟩

end Cric
